import Mathlib

/-!
Shallow embedding of the core of `sistemafinanceiroback` (a psychology-practice
management backend): the `Session` and `FinancialEntry` entities and their state
machines (`app/domain/entities/session.py`, `app/domain/entities/financial_entry.py`),
the session-status orchestrator (`app/use_cases/session/update_session_status.py`),
the financial report aggregator
(`.history/app/use_cases/financial/financial_report_20260128143138.py`, the snapshot
of the module `app.use_cases.financial.financial_report` imported by the dashboard)
and the dashboard aggregator (`app/use_cases/dashboard/dashboard_summary.py`).

Modelling conventions:
* `UUID`s are `Nat`; fresh ids are passed in as parameters where Python calls `uuid4()`.
* Python `datetime.date` is a `Nat` day number; `datetime.datetime` is a day number
  plus a minute-of-day; `DateTime.date` is Python `.date()`.
* `Decimal` money amounts are `Rat` (Python `Decimal` arithmetic on these programs
  is exact decimal arithmetic, which `Rat` represents faithfully).
* Mutation is modelled by returning the updated value; a raised exception is
  `Except.error`; the wall clock (`datetime.now`, `date.today`) is a parameter.
* The persistence boundary (an excluded collaborator) is a `Store` value, and each
  repository method is modelled with exactly the argument list **the use-case layer
  passes at its call sites**.  The current repository interfaces and implementations
  in the repository all demand a leading `user_id` argument which these call sites
  do not supply; the `Store` operations therefore take no owner argument and are
  owner-unscoped, which reproduces what those call sites ask of their collaborator.
* Name resolution failures in the use-case layer are modelled explicitly: the
  orchestrator references the enum member `SessionStatus.CONCLUIDA` and the method
  `Session.complete`, neither of which exists in `app/domain/entities/session.py`
  (the enum members are `AGENDADA`, `REALIZADA`, `CANCELADA`, `FALTOU`); in Python
  both references raise `AttributeError` when evaluated, and the orchestrator calls
  `FinancialEntry.create_from_session` without the required `user_id` parameter,
  which raises `TypeError`.  These are modelled as `AppError.attributeError` /
  `AppError.typeError` results.
-/

namespace SistemaFinanceiro

/-- Python `datetime.datetime`, reduced to the structure the core observes:
a calendar day (as a day number) and a time of day (as a minute count). -/
structure DateTime where
  day : Nat
  minute : Nat
deriving DecidableEq, Repr

/-- Python `datetime.date()` on a `datetime`: drop the time of day. -/
def DateTime.date (t : DateTime) : Nat := t.day

/-- Total minute count, used to compare datetimes the way Python orders them. -/
def DateTime.absMinutes (t : DateTime) : Nat := t.day * 1440 + t.minute

/-- The exception taxonomy of `app/core/exceptions.py`, plus the two Python
built-in exceptions the stale use-case layer can raise (`AttributeError` from a
dangling name, `TypeError` from a call missing a required argument). -/
inductive AppError where
  | validationError (message : String) (field : Option String)
  | businessRuleError (message : String)
  | notFoundError (resource : String)
  | attributeError (name : String)
  | typeError (message : String)
deriving DecidableEq, Repr

/-- `SessionStatus` from `app/domain/entities/session.py` lines 16-22:
`AGENDADA`, `REALIZADA`, `CANCELADA`, `FALTOU` (and no other member). -/
inductive SessionStatus where
  | agendada
  | realizada
  | cancelada
  | faltou
deriving DecidableEq, Repr

/-- `EntryStatus` from `app/domain/entities/financial_entry.py` lines 16-21:
`PENDENTE`, `PAGO` (and no other member). -/
inductive EntryStatus where
  | pendente
  | pago
deriving DecidableEq, Repr

/-- The `Session` dataclass (`app/domain/entities/session.py`). -/
structure Session where
  user_id : Nat
  patient_id : Nat
  date_time : DateTime
  price : Rat
  duration_minutes : Nat := 50
  status : SessionStatus := .agendada
  notes : Option String := none
  id : Nat
  created_at : Nat := 0
  updated_at : Option Nat := none
deriving DecidableEq, Repr

/-- `Session._validate_price`: non-negative and at most 10000.00. -/
def Session.price_ok (s : Session) : Prop := 0 ≤ s.price ∧ s.price ≤ 10000

/-- `Session.is_completable`: only `AGENDADA` sessions may become
`REALIZADA` or `FALTOU`. -/
def Session.is_completable (s : Session) : Bool := s.status = .agendada

/-- `Session.is_cancellable`: only `AGENDADA` sessions may be cancelled. -/
def Session.is_cancellable (s : Session) : Bool := s.status = .agendada

/-- `Session.mark_as_realized`: requires `AGENDADA`, sets `REALIZADA` and
stamps `updated_at`; otherwise raises `BusinessRuleError`. -/
def Session.mark_as_realized (s : Session) (now : Nat) : Except AppError Session :=
  if s.is_completable then
    .ok { s with status := .realizada, updated_at := some now }
  else
    .error (.businessRuleError "Sessão não pode ser marcada como realizada.")

/-- `Session.mark_as_missed`: requires `AGENDADA`, sets `FALTOU` and stamps
`updated_at`; otherwise raises `BusinessRuleError`. -/
def Session.mark_as_missed (s : Session) (now : Nat) : Except AppError Session :=
  if s.is_completable then
    .ok { s with status := .faltou, updated_at := some now }
  else
    .error (.businessRuleError "Sessão não pode ser marcada como faltou.")

/-- `Session.cancel`: requires `AGENDADA`, sets `CANCELADA` and stamps
`updated_at`; otherwise raises `BusinessRuleError`. -/
def Session.cancel (s : Session) (now : Nat) : Except AppError Session :=
  if s.is_cancellable then
    .ok { s with status := .cancelada, updated_at := some now }
  else
    .error (.businessRuleError "Sessão não pode ser cancelada.")

/-- `Session.reschedule`: the status guard comes first (non-`AGENDADA` raises
`BusinessRuleError`); then dates before `one_year_ago` (Python
`now.replace(year=now.year-1)`, passed here as the computed cutoff) raise
`ValidationError`; otherwise the date moves and `updated_at` is stamped. -/
def Session.reschedule (s : Session) (new_date_time : DateTime)
    (one_year_ago : DateTime) (now : Nat) : Except AppError Session :=
  if s.status ≠ SessionStatus.agendada then
    .error (.businessRuleError "Apenas sessões agendadas podem ser reagendadas.")
  else if new_date_time.absMinutes < one_year_ago.absMinutes then
    .error (.validationError "Data muito antiga." none)
  else
    .ok { s with date_time := new_date_time, updated_at := some now }

/-- The `FinancialEntry` dataclass (`app/domain/entities/financial_entry.py`). -/
structure FinancialEntry where
  session_id : Nat
  patient_id : Nat
  user_id : Nat
  amount : Rat
  entry_date : Nat
  description : String := ""
  status : EntryStatus := .pendente
  id : Nat
  created_at : Nat := 0
  paid_at : Option Nat := none
deriving DecidableEq, Repr

/-- `FinancialEntry.is_pending`. -/
def FinancialEntry.is_pending (e : FinancialEntry) : Bool := e.status = .pendente

/-- `FinancialEntry.is_paid`. -/
def FinancialEntry.is_paid (e : FinancialEntry) : Bool := e.status = .pago

/-- `FinancialEntry.mark_as_paid`: raises `BusinessRuleError` when already paid,
otherwise sets `PAGO` and stamps `paid_at`. -/
def FinancialEntry.mark_as_paid (e : FinancialEntry) (now : Nat) :
    Except AppError FinancialEntry :=
  if e.is_paid then
    .error (.businessRuleError "Lançamento já está pago.")
  else
    .ok { e with status := .pago, paid_at := some now }

/-- `FinancialEntry.mark_as_pending`: raises `BusinessRuleError` unless paid,
otherwise reverts to `PENDENTE` and clears `paid_at`. -/
def FinancialEntry.mark_as_pending (e : FinancialEntry) :
    Except AppError FinancialEntry :=
  if e.is_paid then
    .ok { e with status := .pendente, paid_at := none }
  else
    .error (.businessRuleError "Lançamento já está pendente.")

/-- `FinancialEntry.is_overdue`: pending and `entry_date` strictly before the
reference date. -/
def FinancialEntry.is_overdue (e : FinancialEntry) (reference_date : Nat) : Bool :=
  e.is_pending && decide (e.entry_date < reference_date)

/-- `FinancialEntry.__post_init__` validations that the factory below runs when
it constructs an entry: amount within `[0, 10000]`, description at most 500
characters, entry date within ten years back and one year forward of today. -/
def FinancialEntry.post_init (e : FinancialEntry) (today : Nat) :
    Except AppError FinancialEntry :=
  if e.amount < 0 then
    .error (.validationError "Valor do lançamento não pode ser negativo." none)
  else if (10000 : Rat) < e.amount then
    .error (.validationError "Valor não pode ser maior que o limite." none)
  else if 500 < e.description.length then
    .error (.validationError "Descrição não pode ter mais de 500 caracteres." none)
  else if e.entry_date + 3650 < today then
    .error (.validationError "Data do lançamento não pode ser muito antiga." none)
  else if today + 365 < e.entry_date then
    .error (.validationError "Data do lançamento não pode ser muito futura." none)
  else
    .ok e

/-- `FinancialEntry.create_from_session` (the entity factory, lines 122-140):
requires `user_id`, takes the amount and the session date, uses the session
date's day as `entry_date`, defaults the description, and runs the dataclass
validations. -/
def FinancialEntry.create_from_session (session_id patient_id user_id : Nat)
    (amount : Rat) (session_date : DateTime) (description : String)
    (today newId : Nat) : Except AppError FinancialEntry :=
  FinancialEntry.post_init
    { session_id := session_id
      patient_id := patient_id
      user_id := user_id
      amount := amount
      entry_date := session_date.date
      description := if description = "" then "Sessão de atendimento" else description
      id := newId } today

/-- The `Patient` dataclass, reduced to the fields the dashboard observes. -/
structure Patient where
  user_id : Nat
  name : String
  active : Bool := true
  id : Nat
deriving DecidableEq, Repr

/-! ## The persistence boundary as the use-case layer invokes it

Each operation below mirrors one repository call site in the use-case layer,
with exactly the arguments that call site passes.  None of those call sites
passes an owner id, so none of these operations is owner-scoped (the
repository interfaces in `app/domain/repositories/` all require a leading
`user_id`; the use cases omit it).  Result ordering imposed by the SQL layer
(`ORDER BY`) is abstracted to the store's list order, which no verified claim
depends on. -/

/-- The backing data of the excluded persistence layer. -/
structure Store where
  sessions : List Session
  entries : List FinancialEntry
  patients : List Patient
deriving DecidableEq, Repr

/-- `session_repository.get_by_id(session_id)` as called at
`update_session_status.py` line 72: lookup by session id alone. -/
def Store.get_session_by_id (st : Store) (session_id : Nat) : Option Session :=
  st.sessions.find? (fun s => s.id == session_id)

/-- `session_repository.update(session)`: replace the stored row with the
same id. -/
def Store.update_session (st : Store) (s : Session) : Store :=
  { st with sessions := st.sessions.map (fun x => if x.id == s.id then s else x) }

/-- `financial_repository.list_pending()` as called at
`update_session_status.py` line 120: all `PENDENTE` entries, of every owner. -/
def Store.list_pending (st : Store) : List FinancialEntry :=
  st.entries.filter FinancialEntry.is_pending

/-- `financial_repository.create(entry)`: persist and return the entry. -/
def Store.create_entry (st : Store) (e : FinancialEntry) : Store :=
  { st with entries := st.entries ++ [e] }

/-- Whether an entry passes the optional status filter of `list_by_period`.
Python applies no filter when `status_filter` is `None` **or** the empty list
(`if status_filter:` is falsy for both). -/
def statusFilterAccepts (filter : Option (List EntryStatus)) (e : FinancialEntry) : Bool :=
  match filter with
  | none => true
  | some [] => true
  | some l => decide (e.status ∈ l)

/-- `financial_repository.list_by_period(start_date, end_date, status_filter)`
as called at `financial_report.py` lines 71-75: entries with `entry_date` in
the inclusive range, optionally restricted by status — of every owner. -/
def Store.list_by_period (st : Store) (start_date end_date : Nat)
    (status_filter : Option (List EntryStatus)) : List FinancialEntry :=
  st.entries.filter (fun e =>
    decide (start_date ≤ e.entry_date) && decide (e.entry_date ≤ end_date) &&
      statusFilterAccepts status_filter e)

/-- `session_repository.list_all(status, start_date, end_date, limit)` as called
at `dashboard_summary.py` lines 180-185: filter by status and by day range
(the implementation widens the dates to whole days), truncate to `limit` —
sessions of every owner. -/
def Store.list_all_sessions (st : Store) (status : Option SessionStatus)
    (start_date end_date : Option Nat) (limit : Nat) : List Session :=
  ((st.sessions.filter (fun s =>
      (match status with | none => true | some v => s.status == v) &&
      (match start_date with | none => true | some d => decide (d ≤ s.date_time.date)) &&
      (match end_date with | none => true | some d => decide (s.date_time.date ≤ d)))).take limit)

/-- `session_repository.list_recent(limit)` as called at `dashboard_summary.py`
line 202: the most recent sessions of every owner. -/
def Store.list_recent_sessions (st : Store) (limit : Nat) : List Session :=
  st.sessions.take limit

/-- `patient_repository.list_all(active_only)` as called at
`dashboard_summary.py` lines 220-221: patients of every owner, optionally only
the active ones. -/
def Store.list_all_patients (st : Store) (active_only : Bool) : List Patient :=
  if active_only then st.patients.filter Patient.active else st.patients

/-! ## Session Status Transition Orchestrator
(`app/use_cases/session/update_session_status.py`) -/

/-- Python attribute lookup `SessionStatus.<name>` on the enum of
`app/domain/entities/session.py`: only `AGENDADA`, `REALIZADA`, `CANCELADA`
and `FALTOU` exist; any other name raises `AttributeError`.  The orchestrator
references `SessionStatus.CONCLUIDA`, which is not a member. -/
def sessionStatusAttr (name : String) : Except AppError SessionStatus :=
  match name with
  | "AGENDADA" => .ok .agendada
  | "REALIZADA" => .ok .realizada
  | "CANCELADA" => .ok .cancelada
  | "FALTOU" => .ok .faltou
  | other => .error (.attributeError other)

/-- Python method lookup `session.complete()`: the `Session` class of
`app/domain/entities/session.py` defines no method named `complete` (its
transition methods are `mark_as_realized`, `mark_as_missed`, `cancel`,
`reschedule`), so the call raises `AttributeError`. -/
def Session.complete_call (_ : Session) : Except AppError Session :=
  .error (.attributeError "complete")

/-- `UpdateSessionStatusUseCase._apply_status_transition` (lines 102-113),
exactly as written: it first evaluates `SessionStatus.CONCLUIDA` (a dangling
name), would call the nonexistent `session.complete()` on that branch, has a
`CANCELADA` branch, an `AGENDADA` branch raising `BusinessRuleError`, and no
`FALTOU` branch at all (that case falls through with the session unchanged). -/
def apply_status_transition (session : Session) (new_status : SessionStatus)
    (now : Nat) : Except AppError Session := do
  let concluida ← sessionStatusAttr "CONCLUIDA"
  if new_status = concluida then
    session.complete_call
  else if new_status = SessionStatus.cancelada then
    session.cancel now
  else if new_status = SessionStatus.agendada then
    .error (.businessRuleError "Não é possível voltar uma sessão para status AGENDADA.")
  else
    .ok session

/-- `UpdateSessionStatusInput` (lines 21-27).  Note: it carries no owner id. -/
structure UpdateSessionStatusInput where
  session_id : Nat
  new_status : SessionStatus
  notes : Option String := none
deriving DecidableEq, Repr

/-- `UpdateSessionStatusOutput` (lines 30-38). -/
structure UpdateSessionStatusOutput where
  session_id : Nat
  previous_status : SessionStatus
  new_status : SessionStatus
  financial_entry_id : Option Nat := none
  financial_entry_amount : Option Rat := none
deriving DecidableEq, Repr

/-- The orchestrator's call to `FinancialEntry.create_from_session` at lines
130-136 passes `session_id`, `patient_id`, `amount`, `session_date` and
`description` but **not** the required `user_id` parameter of the factory
(`financial_entry.py` lines 122-131), so in Python the call raises
`TypeError` before the factory body runs. -/
def create_from_session_call (_session_id _patient_id : Nat) (_amount : Rat)
    (_session_date : DateTime) (_description : String) (_today _newId : Nat) :
    Except AppError FinancialEntry :=
  .error (.typeError "create_from_session missing required argument user_id")

/-- `UpdateSessionStatusUseCase._create_financial_entry_if_not_exists`
(lines 115-138): scan the pending entries for one referencing this session id
and reuse it; otherwise construct a new entry from the session and persist it. -/
def create_financial_entry_if_not_exists (store : Store) (session : Session)
    (today newId : Nat) : Except AppError (FinancialEntry × Store) := do
  let pending := store.list_pending
  match pending.find? (fun e => e.session_id == session.id) with
  | some existing => .ok (existing, store)
  | none => do
    let entry ← create_from_session_call session.id session.patient_id
      session.price session.date_time "Sessão" today newId
    .ok (entry, store.create_entry entry)

/-- `UpdateSessionStatusUseCase.execute` (lines 67-100): load the session by
id (raising `NotFoundError` when absent), apply the status transition, apply
truthy notes, persist the session, and — when the requested status equals
`SessionStatus.CONCLUIDA` (a second evaluation of the dangling name) — create
or recover the financial entry; finally return the transition summary. -/
def UpdateSessionStatusUseCase.execute (store : Store)
    (input : UpdateSessionStatusInput) (now today newId : Nat) :
    Except AppError (UpdateSessionStatusOutput × Store) := do
  let session ←
    match store.get_session_by_id input.session_id with
    | none => Except.error (.notFoundError "Sessão")
    | some s => Except.ok s
  let previous_status := session.status
  let session ← apply_status_transition session input.new_status now
  let session :=
    match input.notes with
    | some n => if n = "" then session else { session with notes := some n }
    | none => session
  let store := store.update_session session
  let concluida ← sessionStatusAttr "CONCLUIDA"
  let (entryOpt, store) ←
    if input.new_status = concluida then do
      let (e, st) ← create_financial_entry_if_not_exists store session today newId
      Except.ok (some e, st)
    else
      Except.ok ((none : Option FinancialEntry), store)
  .ok ({ session_id := session.id
         previous_status := previous_status
         new_status := session.status
         financial_entry_id := entryOpt.map FinancialEntry.id
         financial_entry_amount := entryOpt.map FinancialEntry.amount }, store)

/-! ## Financial Report Aggregator
(`.history/app/use_cases/financial/financial_report_20260128143138.py`, the
snapshot of the `app.use_cases.financial.financial_report` module that the
dashboard imports). -/

/-- `FinancialReportInput` (lines 17-23). -/
structure FinancialReportInput where
  start_date : Nat
  end_date : Nat
  status_filter : Option (List EntryStatus) := none
deriving DecidableEq, Repr

/-- `FinancialEntrySummary` (lines 26-36). -/
structure FinancialEntrySummary where
  id : Nat
  session_id : Nat
  patient_id : Nat
  entry_date : Nat
  amount : Rat
  status : EntryStatus
  description : String
deriving DecidableEq, Repr

/-- The summary projection of an entry built at lines 78-89. -/
def FinancialEntry.to_summary (e : FinancialEntry) : FinancialEntrySummary :=
  { id := e.id
    session_id := e.session_id
    patient_id := e.patient_id
    entry_date := e.entry_date
    amount := e.amount
    status := e.status
    description := e.description }

/-- `FinancialReportOutput` (lines 39-49). -/
structure FinancialReportOutput where
  entries : List FinancialEntrySummary
  total_entries : Nat
  total_amount : Rat
  total_pending : Rat
  total_paid : Rat
  period_start : Nat
  period_end : Nat
deriving DecidableEq, Repr

/-- `FinancialReportUseCase._validate_period` (lines 112-127): `start > end`
raises `ValidationError` on field `start_date`; a span exceeding
`timedelta(days=365*5)` raises `ValidationError` on field `period`. -/
def validate_period (start_date end_date : Nat) : Except AppError Unit :=
  if end_date < start_date then
    .error (.validationError "Data inicial não pode ser maior que data final."
      (some "start_date"))
  else if 365 * 5 < end_date - start_date then
    .error (.validationError "Período não pode exceder 5 anos." (some "period"))
  else
    .ok ()

/-- Line 92: `sum((e.amount for e in entries), Decimal("0"))`. -/
def total_amount_of (entries : List FinancialEntry) : Rat :=
  (entries.map FinancialEntry.amount).sum

/-- Lines 93-96: the sum of the amounts of the `PENDENTE` entries. -/
def total_pending_of (entries : List FinancialEntry) : Rat :=
  ((entries.filter FinancialEntry.is_pending).map FinancialEntry.amount).sum

/-- Lines 97-100: the sum of the amounts of the `PAGO` entries. -/
def total_paid_of (entries : List FinancialEntry) : Rat :=
  ((entries.filter FinancialEntry.is_paid).map FinancialEntry.amount).sum

/-- `FinancialReportUseCase.execute` (lines 65-110): validate the period,
fetch the entries of the period through the repository boundary, project the
summaries, and aggregate the three totals and the count. -/
def FinancialReportUseCase.execute (store : Store)
    (input : FinancialReportInput) : Except AppError FinancialReportOutput := do
  validate_period input.start_date input.end_date
  let entries := store.list_by_period input.start_date input.end_date
    input.status_filter
  .ok { entries := entries.map FinancialEntry.to_summary
        total_entries := entries.length
        total_amount := total_amount_of entries
        total_pending := total_pending_of entries
        total_paid := total_paid_of entries
        period_start := input.start_date
        period_end := input.end_date }

/-! ## Dashboard Aggregator (`app/use_cases/dashboard/dashboard_summary.py`) -/

/-- `DashboardSummaryInput` (lines 33-38).  Note: it carries no owner id. -/
structure DashboardSummaryInput where
  start_date : Nat
  end_date : Nat
deriving DecidableEq, Repr

/-- `FinancialReportData` (lines 41-50). -/
structure FinancialReportData where
  total_revenue : Rat
  total_paid : Rat
  total_pending : Rat
  entries : List FinancialEntrySummary
  period_start : Nat
  period_end : Nat
deriving DecidableEq, Repr

/-- `SessionSummary` (lines 53-63). -/
structure SessionSummary where
  id : Nat
  patient_id : Nat
  date_time : DateTime
  price : Rat
  duration_minutes : Nat
  status : SessionStatus
  notes : Option String
deriving DecidableEq, Repr

/-- The session projection built at lines 187-198 and 204-215. -/
def Session.to_summary (s : Session) : SessionSummary :=
  { id := s.id
    patient_id := s.patient_id
    date_time := s.date_time
    price := s.price
    duration_minutes := s.duration_minutes
    status := s.status
    notes := s.notes }

/-- `PatientsSummary` (lines 66-72). -/
structure PatientsSummary where
  total_patients : Nat
  active_patients : Nat
  inactive_patients : Nat
deriving DecidableEq, Repr

/-- `DashboardSummaryOutput` (lines 75-82). -/
structure DashboardSummaryOutput where
  financial_report : FinancialReportData
  today_sessions : List SessionSummary
  recent_sessions : List SessionSummary
  patients_summary : PatientsSummary
deriving DecidableEq, Repr

/-- `DashboardSummaryUseCase._validate_period` (lines 148-162): `start > end`
raises `ValidationError` on field `start_date`; more than 365 days raises
`ValidationError` on field `period`. -/
def dashboard_validate_period (start_date end_date : Nat) :
    Except AppError Unit :=
  if end_date < start_date then
    .error (.validationError "Data inicial não pode ser maior que data final."
      (some "start_date"))
  else if 365 < end_date - start_date then
    .error (.validationError "Período não pode exceder 1 ano." (some "period"))
  else
    .ok ()

/-- `DashboardSummaryUseCase._get_today_sessions` (lines 174-198): sessions
with status `AGENDADA` dated today, capped at 100, projected to summaries. -/
def get_today_sessions (store : Store) (today : Nat) : List SessionSummary :=
  (store.list_all_sessions (some .agendada) (some today) (some today) 100).map
    Session.to_summary

/-- `DashboardSummaryUseCase._get_recent_sessions` (lines 200-215): the 10
most recent sessions, projected to summaries. -/
def get_recent_sessions (store : Store) : List SessionSummary :=
  (store.list_recent_sessions 10).map Session.to_summary

/-- `DashboardSummaryUseCase._get_patients_summary` (lines 217-231): count all
patients and the active patients through the (unscoped) boundary calls;
`inactive = total - active`. -/
def get_patients_summary (store : Store) : PatientsSummary :=
  let all_patients := store.list_all_patients false
  let active_patients := store.list_all_patients true
  { total_patients := all_patients.length
    active_patients := active_patients.length
    inactive_patients := all_patients.length - active_patients.length }

/-- `DashboardSummaryUseCase.execute` (lines 102-146): validate the period
(1-year ceiling), run the financial report for the period, gather today's and
the recent sessions and the patient counts, and compose the response with the
report's entry list truncated to the first 100 (`entries[:100]`) while the
totals are copied from the full report. -/
def DashboardSummaryUseCase.execute (store : Store) (today : Nat)
    (input : DashboardSummaryInput) : Except AppError DashboardSummaryOutput := do
  dashboard_validate_period input.start_date input.end_date
  let report ← FinancialReportUseCase.execute store
    { start_date := input.start_date, end_date := input.end_date }
  let today_sessions := get_today_sessions store today
  let recent_sessions := get_recent_sessions store
  let patients_summary := get_patients_summary store
  .ok { financial_report :=
          { total_revenue := report.total_amount
            total_paid := report.total_paid
            total_pending := report.total_pending
            entries := report.entries.take 100
            period_start := report.period_start
            period_end := report.period_end }
        today_sessions := today_sessions
        recent_sessions := recent_sessions
        patients_summary := patients_summary }

/-! ## Derived predicates and concrete fixtures -/

/-- The call raised `BusinessRuleError` (and therefore returned no updated
session: in this functional model an `error` result leaves the caller's
session value untouched, mirroring that the Python methods raise before any
mutation). -/
def businessRuleFailed (r : Except AppError Session) : Prop :=
  ∃ m, r = Except.error (AppError.businessRuleError m)

/-- The session's state is terminal: every transition operation of the state
machine fails with a business-rule violation, whatever the clock or the
requested new date. -/
def no_transition_succeeds (s : Session) : Prop :=
  ∀ (now : Nat) (dt cutoff : DateTime),
    businessRuleFailed (s.mark_as_realized now) ∧
    businessRuleFailed (s.mark_as_missed now) ∧
    businessRuleFailed (s.cancel now) ∧
    businessRuleFailed (s.reschedule dt cutoff now)

/-- A scheduled session fixture (owner 1, patient 2, price 200.00). -/
def sess_sched : Session :=
  { user_id := 1, patient_id := 2, date_time := ⟨100, 540⟩, price := 200, id := 7 }

/-- The same session already cancelled. -/
def sess_canc : Session := { sess_sched with status := .cancelada }

/-- A second scheduled session fixture (owner 1, patient 3, price 350.50). -/
def sess_sched2 : Session :=
  { user_id := 1, patient_id := 3, date_time := ⟨101, 600⟩, price := 701/2, id := 8 }

/-- A store holding only `sess_sched`. -/
def store_one : Store := { sessions := [sess_sched], entries := [], patients := [] }

/-- A store holding only `sess_sched2`. -/
def store_two : Store := { sessions := [sess_sched2], entries := [], patients := [] }

/-- A pending financial entry already referencing session 7. -/
def entry_for_7 : FinancialEntry :=
  { session_id := 7, patient_id := 2, user_id := 1, amount := 200,
    entry_date := 100, id := 40 }

/-- `store_one` with the pending entry for session 7 already persisted. -/
def store_entry : Store :=
  { sessions := [sess_sched], entries := [entry_for_7], patients := [] }

/-- The empty store. -/
def store_empty : Store := { sessions := [], entries := [], patients := [] }

/-- A patient belonging to a different owner (owner 99). -/
def patient_other : Patient := { user_id := 99, name := "Outro", id := 50 }

/-- `store_empty` plus one patient of owner 99 — the two stores differ only in
another owner's data. -/
def store_with_other : Store := { store_empty with patients := [patient_other] }

/-- A pending entry of 250.00 dated day 15. -/
def entry_pend : FinancialEntry :=
  { session_id := 7, patient_id := 2, user_id := 1, amount := 250,
    entry_date := 15, id := 41 }

/-- A paid entry of 400.00 dated day 8. -/
def entry_paid : FinancialEntry :=
  { session_id := 8, patient_id := 3, user_id := 1, amount := 400,
    entry_date := 8, status := .pago, id := 42 }

/-- A store with one pending and one paid entry. -/
def store_fin : Store :=
  { sessions := [], entries := [entry_pend, entry_paid], patients := [] }

/-- The report the aggregator produces over `store_fin` for the period
`[0, 30]`. -/
def rep_fin : FinancialReportOutput :=
  { entries := [entry_pend.to_summary, entry_paid.to_summary]
    total_entries := 2
    total_amount := 650
    total_pending := 250
    total_paid := 400
    period_start := 0
    period_end := 30 }

/-! ## Supporting lemmas -/

/-- `SessionStatus` has no member named `CONCLUIDA`, so the lookup the
orchestrator performs raises `AttributeError`. -/
theorem sessionStatusAttr_concluida :
    sessionStatusAttr "CONCLUIDA" = .error (.attributeError "CONCLUIDA") := by
  rfl

/-- Every call to `_apply_status_transition` evaluates the dangling
`SessionStatus.CONCLUIDA` reference first and therefore raises
`AttributeError`, for every session and every requested status. -/
theorem apply_status_transition_attr_error (s : Session) (ns : SessionStatus)
    (now : Nat) :
    apply_status_transition s ns now = .error (.attributeError "CONCLUIDA") := by
  rfl

/-- When the session is found, `UpdateSessionStatusUseCase.execute` raises
the `AttributeError` of the status dispatch, for every requested status. -/
theorem execute_attr_error (store : Store) (input : UpdateSessionStatusInput)
    (now today newId : Nat) (s : Session)
    (h : store.get_session_by_id input.session_id = some s) :
    UpdateSessionStatusUseCase.execute store input now today newId =
      .error (.attributeError "CONCLUIDA") := by
  unfold UpdateSessionStatusUseCase.execute
  rw [h]
  rfl

/-- A session whose state is not `AGENDADA` refuses all four transition
operations with `BusinessRuleError`. -/
theorem no_transition_of_not_agendada (s : Session)
    (h : s.status ≠ SessionStatus.agendada) : no_transition_succeeds s := by
  intro now dt cutoff
  have hc : s.is_completable = false := by
    simp [Session.is_completable, h]
  have hcl : s.is_cancellable = false := by
    simp [Session.is_cancellable, h]
  refine ⟨⟨"Sessão não pode ser marcada como realizada.", ?_⟩,
    ⟨"Sessão não pode ser marcada como faltou.", ?_⟩,
    ⟨"Sessão não pode ser cancelada.", ?_⟩,
    ⟨"Apenas sessões agendadas podem ser reagendadas.", ?_⟩⟩
  · simp [Session.mark_as_realized, hc]
  · simp [Session.mark_as_missed, hc]
  · simp [Session.cancel, hcl]
  · simp [Session.reschedule, h]

/-- Projecting entries to report summaries preserves the amounts. -/
theorem map_to_summary_amount (l : List FinancialEntry) :
    (l.map FinancialEntry.to_summary).map FinancialEntrySummary.amount =
      l.map FinancialEntry.amount := by
  induction l with
  | nil => rfl
  | cons a t ih => simp [FinancialEntry.to_summary, ih]

/-- Filtering the summaries by a status is filtering the entries by that
status and then projecting. -/
theorem filter_to_summary_status (l : List FinancialEntry) (st : EntryStatus) :
    (l.map FinancialEntry.to_summary).filter (fun x => x.status = st) =
      (l.filter (fun x => x.status = st)).map FinancialEntry.to_summary := by
  induction l with
  | nil => rfl
  | cons a t ih =>
    by_cases h : a.status = st <;>
      simp [FinancialEntry.to_summary, h, ih, List.filter]

/-- Every entry status is `PENDENTE` or `PAGO`, so the overall sum splits into
the pending sum plus the paid sum. -/
theorem total_amount_partition (l : List FinancialEntry) :
    total_amount_of l = total_pending_of l + total_paid_of l := by
  induction l with
  | nil => simp [total_amount_of, total_pending_of, total_paid_of]
  | cons a t ih =>
    cases ha : a.status
    · have hp : a.is_pending = true := by
        simp [FinancialEntry.is_pending, ha]
      have hq : a.is_paid = false := by
        simp [FinancialEntry.is_paid, ha]
      simp [total_amount_of, total_pending_of, total_paid_of, List.filter,
        hp, hq] at *
      rw [ih]
      ring
    · have hp : a.is_pending = false := by
        simp [FinancialEntry.is_pending, ha]
      have hq : a.is_paid = true := by
        simp [FinancialEntry.is_paid, ha]
      simp [total_amount_of, total_pending_of, total_paid_of, List.filter,
        hp, hq] at *
      rw [ih]
      ring

/-! ## Claim theorems -/

/-- Claim C1: the claim says a retried `updateStatus(completed)` call returns
the first call's FinancialEntry id and the per-session entry count stays 1.
On the code, already the first call raises `AttributeError` (the dispatch
evaluates the dangling `SessionStatus.CONCLUIDA`), so no call ever returns an
entry id and the count for the session stays 0; the at-most-one-per-session
reuse does hold one layer down: when a pending entry for the session already
exists, `_create_financial_entry_if_not_exists` returns that same entry and
leaves the store unchanged (third conjunct). -/
theorem claim_C1 :
    UpdateSessionStatusUseCase.execute store_one ⟨7, .realizada, none⟩ 10 100 31 =
      .error (.attributeError "CONCLUIDA") ∧
    (store_one.entries.filter (fun x => x.session_id == 7)).length = 0 ∧
    create_financial_entry_if_not_exists store_entry sess_sched 100 31 =
      .ok (entry_for_7, store_entry) :=
  ⟨rfl, rfl, rfl⟩

/-- Claim C2: the claim says completing a scheduled session of price P once
creates exactly one pending FinancialEntry of amount P dated at the session
date, returned in the summary.  On the code, the call on a scheduled session
of price 350.50 raises `AttributeError` instead (dangling
`SessionStatus.CONCLUIDA` in the dispatch) and the store's entry list stays
empty. -/
theorem claim_C2 :
    UpdateSessionStatusUseCase.execute store_two ⟨8, .realizada, none⟩ 10 100 31 =
      .error (.attributeError "CONCLUIDA") ∧
    store_two.entries.length = 0 :=
  ⟨rfl, rfl⟩

/-- Claim C3: the claim says the orchestrator dispatches completed→complete,
cancelled→cancel, no_show→markNoShow, rejects scheduled with a business-rule
violation, and propagates state-machine violations unchanged.  On the code,
`_apply_status_transition` evaluates the dangling `SessionStatus.CONCLUIDA`
before any branch, so every dispatch — for all four target statuses on a
scheduled session, and for the illegal completion of a cancelled session —
raises `AttributeError` instead. -/
theorem claim_C3 :
    apply_status_transition sess_sched .realizada 10 =
      .error (.attributeError "CONCLUIDA") ∧
    apply_status_transition sess_sched .cancelada 10 =
      .error (.attributeError "CONCLUIDA") ∧
    apply_status_transition sess_sched .faltou 10 =
      .error (.attributeError "CONCLUIDA") ∧
    apply_status_transition sess_sched .agendada 10 =
      .error (.attributeError "CONCLUIDA") ∧
    apply_status_transition sess_canc .realizada 10 =
      .error (.attributeError "CONCLUIDA") :=
  ⟨rfl, rfl, rfl, rfl, rfl⟩

/-- Claim C4: on a scheduled session, `mark_as_realized`, `cancel` and
`mark_as_missed` succeed and land in a terminal state (no further transition
succeeds); on a non-scheduled session all four transition operations fail
with `BusinessRuleError` (and, the methods raising before mutating, the
session value is unchanged); and no successful operation ever produces a
scheduled session from a non-scheduled one. -/
theorem claim_C4 (s : Session) (now : Nat) (dt cutoff : DateTime) :
    (s.status = SessionStatus.agendada →
      (∃ s1, s.mark_as_realized now = .ok s1 ∧ s1.status = .realizada ∧
        no_transition_succeeds s1) ∧
      (∃ s2, s.cancel now = .ok s2 ∧ s2.status = .cancelada ∧
        no_transition_succeeds s2) ∧
      (∃ s3, s.mark_as_missed now = .ok s3 ∧ s3.status = .faltou ∧
        no_transition_succeeds s3)) ∧
    (s.status ≠ SessionStatus.agendada → no_transition_succeeds s) ∧
    (∀ s4, (s.mark_as_realized now = .ok s4 ∨ s.mark_as_missed now = .ok s4 ∨
        s.cancel now = .ok s4 ∨ s.reschedule dt cutoff now = .ok s4) →
      s4.status = SessionStatus.agendada → s.status = SessionStatus.agendada) := by
  refine ⟨?_, fun h => no_transition_of_not_agendada s h, ?_⟩
  · intro h
    have hc : s.is_completable = true := by
      simp [Session.is_completable, h]
    have hcl : s.is_cancellable = true := by
      simp [Session.is_cancellable, h]
    refine ⟨⟨{ s with status := .realizada, updated_at := some now }, ?_, rfl, ?_⟩,
      ⟨{ s with status := .cancelada, updated_at := some now }, ?_, rfl, ?_⟩,
      ⟨{ s with status := .faltou, updated_at := some now }, ?_, rfl, ?_⟩⟩
    · simp [Session.mark_as_realized, hc]
    · exact no_transition_of_not_agendada _ (fun hh => nomatch hh)
    · simp [Session.cancel, hcl]
    · exact no_transition_of_not_agendada _ (fun hh => nomatch hh)
    · simp [Session.mark_as_missed, hc]
    · exact no_transition_of_not_agendada _ (fun hh => nomatch hh)
  · intro s4 hor h4
    by_contra hs
    obtain ⟨⟨m1, e1⟩, ⟨m2, e2⟩, ⟨m3, e3⟩, ⟨m4, e4⟩⟩ :=
      no_transition_of_not_agendada s hs now dt cutoff
    rcases hor with h | h | h | h
    · rw [h] at e1; simp at e1
    · rw [h] at e2; simp at e2
    · rw [h] at e3; simp at e3
    · rw [h] at e4; simp at e4

/-- Witness for C4 at concrete sessions: completing the scheduled fixture
succeeds into a terminal state, and the cancelled fixture refuses every
transition. -/
theorem claim_C4_witness :
    (∃ s1, sess_sched.mark_as_realized 5 = .ok s1 ∧ s1.status = .realizada ∧
      no_transition_succeeds s1) ∧
    no_transition_succeeds sess_canc :=
  ⟨((claim_C4 sess_sched 5 ⟨0, 0⟩ ⟨0, 0⟩).1 rfl).1,
    (claim_C4 sess_canc 5 ⟨0, 0⟩ ⟨0, 0⟩).2.1 (by decide)⟩

/-- Claim C5: the claim says every store query issued by the core carries the
calling owner's id, so results cannot depend on another owner's data.  On the
code, the dashboard input carries no owner id at all and the patient query is
issued without an owner argument, so two stores that differ only in a patient
of another owner (owner 99) produce different dashboard summaries. -/
theorem claim_C5 :
    (DashboardSummaryUseCase.execute store_empty 0 ⟨0, 0⟩).map
        (fun o => o.patients_summary.total_patients) = .ok 0 ∧
    (DashboardSummaryUseCase.execute store_with_other 0 ⟨0, 0⟩).map
        (fun o => o.patients_summary.total_patients) = .ok 1 ∧
    store_with_other.sessions = store_empty.sessions ∧
    store_with_other.entries = store_empty.entries ∧
    store_with_other.patients = [patient_other] ∧
    patient_other.user_id = 99 :=
  ⟨rfl, rfl, rfl, rfl, rfl, rfl⟩

/-- Claim C6: the claim says cancelling or no-showing never creates a
FinancialEntry and the returned summary carries null entry id and amount.
On the code no entry is ever created on these paths, but no summary is
returned either: both calls raise `AttributeError` (the dispatch evaluates
the dangling `SessionStatus.CONCLUIDA` before reaching the cancel branch and
before the nonexistent no-show branch). -/
theorem claim_C6 :
    UpdateSessionStatusUseCase.execute store_one ⟨7, .cancelada, none⟩ 10 100 31 =
      .error (.attributeError "CONCLUIDA") ∧
    UpdateSessionStatusUseCase.execute store_one ⟨7, .faltou, none⟩ 10 100 31 =
      .error (.attributeError "CONCLUIDA") :=
  ⟨rfl, rfl⟩

/-- Binding a raised exception short-circuits. -/
theorem except_bind_error {α β : Type} (e : AppError)
    (f : α → Except AppError β) :
    (Except.error e >>= f : Except AppError β) = Except.error e := rfl

/-- Binding a successful result applies the continuation. -/
theorem except_bind_ok {α β : Type} (a : α) (f : α → Except AppError β) :
    (Except.ok a >>= f : Except AppError β) = f a := rfl

/-- When the period is valid, `_validate_period` of the report returns. -/
theorem validate_period_ok (s e : Nat) (h1 : s ≤ e) (h2 : e - s ≤ 365 * 5) :
    validate_period s e = .ok () := by
  unfold validate_period
  rw [if_neg (by omega), if_neg (by omega)]

/-- Over a valid period the report evaluates to the record built at
`financial_report.py` lines 102-110. -/
theorem report_execute_eq (store : Store) (s e : Nat)
    (filt : Option (List EntryStatus)) (h1 : s ≤ e) (h2 : e - s ≤ 365 * 5) :
    FinancialReportUseCase.execute store ⟨s, e, filt⟩ =
      .ok { entries := (store.list_by_period s e filt).map
              FinancialEntry.to_summary
            total_entries := (store.list_by_period s e filt).length
            total_amount := total_amount_of (store.list_by_period s e filt)
            total_pending := total_pending_of (store.list_by_period s e filt)
            total_paid := total_paid_of (store.list_by_period s e filt)
            period_start := s
            period_end := e } := by
  show (validate_period s e >>= fun _ => _) = _
  rw [validate_period_ok s e h1 h2, except_bind_ok]

/-- Claim C7: `report(owner, start, end)` with `start > end` fails with a
Validation error on field `start_date`; with `start ≤ end` but a span above
five years (the source's `timedelta(days=365*5)`) it fails with a Validation
error on field `period`; and for `start ≤ end` with span at most five years
validation passes and the report is computed. -/
theorem claim_C7 (store : Store) (s e : Nat) (filt : Option (List EntryStatus)) :
    (e < s → FinancialReportUseCase.execute store ⟨s, e, filt⟩ =
      .error (.validationError "Data inicial não pode ser maior que data final."
        (some "start_date"))) ∧
    (s ≤ e → 365 * 5 < e - s → FinancialReportUseCase.execute store ⟨s, e, filt⟩ =
      .error (.validationError "Período não pode exceder 5 anos."
        (some "period"))) ∧
    (s ≤ e → e - s ≤ 365 * 5 →
      ∃ out, FinancialReportUseCase.execute store ⟨s, e, filt⟩ = .ok out) := by
  refine ⟨fun h => ?_, fun h1 h2 => ?_, fun h1 h2 => ?_⟩
  · have hv : validate_period s e =
        .error (.validationError "Data inicial não pode ser maior que data final."
          (some "start_date")) := by
      unfold validate_period
      rw [if_pos h]
    show (validate_period s e >>= fun _ => _) = _
    rw [hv, except_bind_error]
  · have hv : validate_period s e =
        .error (.validationError "Período não pode exceder 5 anos."
          (some "period")) := by
      unfold validate_period
      rw [if_neg (by omega), if_pos h2]
    show (validate_period s e >>= fun _ => _) = _
    rw [hv, except_bind_error]
  · exact ⟨_, report_execute_eq store s e filt h1 h2⟩

/-- Witness for C7: a reversed period is rejected on `start_date`, a
2000-day period is rejected on `period`, and a 30-day period is computed. -/
theorem claim_C7_witness :
    (FinancialReportUseCase.execute store_empty ⟨5, 3, none⟩ =
      .error (.validationError "Data inicial não pode ser maior que data final."
        (some "start_date"))) ∧
    (FinancialReportUseCase.execute store_empty ⟨0, 2000, none⟩ =
      .error (.validationError "Período não pode exceder 5 anos."
        (some "period"))) ∧
    (∃ out, FinancialReportUseCase.execute store_empty ⟨0, 30, none⟩ = .ok out) :=
  ⟨(claim_C7 store_empty 5 3 none).1 (by omega),
    (claim_C7 store_empty 0 2000 none).2.1 (by omega) (by omega),
    (claim_C7 store_empty 0 30 none).2.2 (by omega) (by omega)⟩

/-- Claim C8: over every valid period the report's `total_amount` is the sum
of the amounts of the returned entries, `total_pending` the sum over the
returned entries with status `PENDENTE`, `total_paid` the sum over those with
status `PAGO`, `total_entries` their count; over zero matching entries all
three sums are the additive identity and the count is 0. -/
theorem claim_C8 (store : Store) (s e : Nat) (filt : Option (List EntryStatus))
    (h1 : s ≤ e) (h2 : e - s ≤ 365 * 5) :
    ∃ out, FinancialReportUseCase.execute store ⟨s, e, filt⟩ = .ok out ∧
      out.total_amount = (out.entries.map FinancialEntrySummary.amount).sum ∧
      out.total_pending = (((out.entries.filter
        (fun x => x.status = EntryStatus.pendente))).map
          FinancialEntrySummary.amount).sum ∧
      out.total_paid = (((out.entries.filter
        (fun x => x.status = EntryStatus.pago))).map
          FinancialEntrySummary.amount).sum ∧
      out.total_entries = out.entries.length ∧
      (out.entries = [] → out.total_amount = 0 ∧ out.total_pending = 0 ∧
        out.total_paid = 0 ∧ out.total_entries = 0) := by
  refine ⟨{ entries := (store.list_by_period s e filt).map
              FinancialEntry.to_summary
            total_entries := (store.list_by_period s e filt).length
            total_amount := total_amount_of (store.list_by_period s e filt)
            total_pending := total_pending_of (store.list_by_period s e filt)
            total_paid := total_paid_of (store.list_by_period s e filt)
            period_start := s
            period_end := e }, ?_, ?_, ?_, ?_, ?_, ?_⟩
  · exact report_execute_eq store s e filt h1 h2
  · rw [map_to_summary_amount]
    rfl
  · rw [filter_to_summary_status, map_to_summary_amount]
    rfl
  · rw [filter_to_summary_status, map_to_summary_amount]
    rfl
  · simp only [List.length_map]
  · intro hnil
    have hl : store.list_by_period s e filt = [] := by
      simpa using congrArg List.length hnil
    refine ⟨?_, ?_, ?_, ?_⟩ <;>
      simp [hl, total_amount_of, total_pending_of, total_paid_of]

/-- Witness for C8 over the two-entry fixture store and the period [0, 30]. -/
theorem claim_C8_witness :
    ∃ out, FinancialReportUseCase.execute store_fin ⟨0, 30, none⟩ = .ok out ∧
      out.total_amount = (out.entries.map FinancialEntrySummary.amount).sum ∧
      out.total_pending = (((out.entries.filter
        (fun x => x.status = EntryStatus.pendente))).map
          FinancialEntrySummary.amount).sum ∧
      out.total_paid = (((out.entries.filter
        (fun x => x.status = EntryStatus.pago))).map
          FinancialEntrySummary.amount).sum ∧
      out.total_entries = out.entries.length ∧
      (out.entries = [] → out.total_amount = 0 ∧ out.total_pending = 0 ∧
        out.total_paid = 0 ∧ out.total_entries = 0) :=
  claim_C8 store_fin 0 30 none (by omega) (by omega)

/-- When the period is valid, `_validate_period` of the dashboard returns. -/
theorem dashboard_validate_period_ok (s e : Nat) (h1 : s ≤ e)
    (h2 : e - s ≤ 365) : dashboard_validate_period s e = .ok () := by
  unfold dashboard_validate_period
  rw [if_neg (by omega), if_neg (by omega)]

/-- Claim C9: over every valid dashboard period the summary's financial
report carries the first 100 entries of the full report (so its length is
`min n 100` for `n` matching entries) while its totals equal the full
report's totals — truncation never changes the totals. -/
theorem claim_C9 (store : Store) (today s e : Nat) (h1 : s ≤ e)
    (h2 : e - s ≤ 365) :
    ∃ out rep, DashboardSummaryUseCase.execute store today ⟨s, e⟩ = .ok out ∧
      FinancialReportUseCase.execute store ⟨s, e, none⟩ = .ok rep ∧
      out.financial_report.entries = rep.entries.take 100 ∧
      out.financial_report.entries.length = min rep.entries.length 100 ∧
      out.financial_report.total_revenue = rep.total_amount ∧
      out.financial_report.total_paid = rep.total_paid ∧
      out.financial_report.total_pending = rep.total_pending := by
  have hrep := report_execute_eq store s e none h1 (by omega)
  have hdash : DashboardSummaryUseCase.execute store today ⟨s, e⟩ =
      .ok { financial_report :=
              { total_revenue := total_amount_of (store.list_by_period s e none)
                total_paid := total_paid_of (store.list_by_period s e none)
                total_pending := total_pending_of (store.list_by_period s e none)
                entries := ((store.list_by_period s e none).map
                  FinancialEntry.to_summary).take 100
                period_start := s
                period_end := e }
            today_sessions := get_today_sessions store today
            recent_sessions := get_recent_sessions store
            patients_summary := get_patients_summary store } := by
    show (dashboard_validate_period s e >>= fun _ => _) = _
    rw [dashboard_validate_period_ok s e h1 h2, except_bind_ok]
    show (FinancialReportUseCase.execute store ⟨s, e, none⟩ >>= fun _ => _) = _
    rw [hrep, except_bind_ok]
  refine ⟨_, _, hdash, hrep, rfl, ?_, rfl, rfl, rfl⟩
  rw [List.length_take, Nat.min_comm]

/-- Witness for C9 over the two-entry fixture store and the period [0, 30]. -/
theorem claim_C9_witness :
    ∃ out rep, DashboardSummaryUseCase.execute store_fin 3 ⟨0, 30⟩ = .ok out ∧
      FinancialReportUseCase.execute store_fin ⟨0, 30, none⟩ = .ok rep ∧
      out.financial_report.entries = rep.entries.take 100 ∧
      out.financial_report.entries.length = min rep.entries.length 100 ∧
      out.financial_report.total_revenue = rep.total_amount ∧
      out.financial_report.total_paid = rep.total_paid ∧
      out.financial_report.total_pending = rep.total_pending :=
  claim_C9 store_fin 3 0 30 (by omega) (by omega)

/-- Claim C10: every report the aggregator returns satisfies
`total_amount = total_pending + total_paid` (every entry status is exactly
`PENDENTE` or `PAGO`) and `total_entries` equals the length of the returned
entry list. -/
theorem claim_C10 (store : Store) (input : FinancialReportInput)
    (out : FinancialReportOutput)
    (h : FinancialReportUseCase.execute store input = .ok out) :
    out.total_amount = out.total_pending + out.total_paid ∧
    out.total_entries = out.entries.length := by
  unfold FinancialReportUseCase.execute at h
  cases hv : validate_period input.start_date input.end_date with
  | error err =>
    rw [hv, except_bind_error] at h
    exact absurd h (by simp)
  | ok u =>
    rw [hv, except_bind_ok] at h
    injection h with h
    subst h
    refine ⟨total_amount_partition _, ?_⟩
    simp only [List.length_map]

/-- Evaluating the aggregator over the two-entry fixture store for the
period [0, 30] yields exactly `rep_fin`. -/
theorem report_fin_eq :
    FinancialReportUseCase.execute store_fin ⟨0, 30, none⟩ = .ok rep_fin := by
  rw [report_execute_eq store_fin 0 30 none (by omega) (by omega)]
  congr 1
  simp only [store_fin, Store.list_by_period, statusFilterAccepts, rep_fin,
    total_amount_of, total_pending_of, total_paid_of, FinancialEntry.is_pending,
    FinancialEntry.is_paid, FinancialEntry.to_summary, entry_pend, entry_paid,
    List.filter, List.map, List.sum, List.foldr, List.length]
  norm_num

/-- Witness for C10: the fixture report over `store_fin` has
`650 = 250 + 400` and entry count 2. -/
theorem claim_C10_witness :
    rep_fin.total_amount = rep_fin.total_pending + rep_fin.total_paid ∧
    rep_fin.total_entries = rep_fin.entries.length :=
  claim_C10 store_fin ⟨0, 30, none⟩ rep_fin report_fin_eq

end SistemaFinanceiro
